import Mathlib

/-!
Shallow embedding of the magnetar propeller model (notebooks `figure1.ipynb`
and `figure2.ipynb`): the global physical constants, the `init_conds` unit
converter and the `ODEs` right-hand-side function, translated into real
arithmetic, together with theorems about the claims of the specification.

Python float expressions are modelled as exact real arithmetic: `x ** e` with
a fractional literal exponent becomes `Real.rpow`, integer-literal exponents
become monoid powers, `np.tanh` becomes `Real.tanh`, `np.pi` becomes
`Real.pi`.
-/

namespace Magnetar

noncomputable section

/-- Gravitational constant, cgs units (`G = 6.674e-8`). -/
def G : ℝ := 6.674e-8

/-- Speed of light in cm/s (`c = 3.0e10`). -/
def c : ℝ := 3e10

/-- Magnetar radius in cm (`R = 1.0e6`). -/
def R : ℝ := 1e6

/-- Solar mass in grams (`Msol = 1.99e33`). -/
def Msol : ℝ := 1.99e33

/-- Magnetar mass in grams (`M = 1.4 * Msol`). -/
def M : ℝ := 1.4 * Msol

/-- Moment of inertia (`I = (4.0 / 5.0) * M * R ** 2.0`). -/
def I : ℝ := (4 / 5) * M * R ^ (2 : ℕ)

/-- Product `GM = G * M`. -/
def GM : ℝ := G * M

/-- The `init_conds` helper: converts an initial spin period in milliseconds
and an initial disc mass in solar masses into the state `(Mdisc0, omega0)`,
with `Mdisc0 = discMass * Msol` and `omega0 = (2.0 * np.pi) / (1.0e-3 * period)`. -/
def init_conds (period discMass : ℝ) : ℝ × ℝ :=
  (discMass * Msol, (2 * Real.pi) / (1e-3 * period))

/-- The parameters of `ODEs(y, t, B, MdiscI, RdiscI, epsilon, delta, n,
alpha=0.1, cs7=1.0, k=0.9)`.  The Python defaults (`alpha = 0.1`,
`cs7 = 1.0`, `k = 0.9`) are supplied explicitly at each use. -/
structure Params where
  B : ℝ
  MdiscI : ℝ
  RdiscI : ℝ
  epsilon : ℝ
  delta : ℝ
  n : ℝ
  alpha : ℝ
  cs7 : ℝ
  k : ℝ

/-- Disc radius in cm: `Rdisc = RdiscI * 1.0e5`. -/
def Rdisc (p : Params) : ℝ := p.RdiscI * 1e5

/-- Viscous timescale: `tvisc = Rdisc / (alpha * cs7 * 1.0e7)`. -/
def tvisc (p : Params) : ℝ := Rdisc p / (p.alpha * p.cs7 * 1e7)

/-- Magnetic dipole moment: `mu = 1.0e15 * B * R ** 3.0`. -/
def mu (p : Params) : ℝ := 1e15 * p.B * R ^ (3 : ℕ)

/-- Global fallback mass budget: `M0 = delta * MdiscI * Msol`. -/
def M0 (p : Params) : ℝ := p.delta * p.MdiscI * Msol

/-- Fallback timescale: `tfb = epsilon * tvisc`. -/
def tfb (p : Params) : ℝ := p.epsilon * tvisc p

/-- The Alfven radius before capping:
`Rm = mu ** (4.0 / 7.0) * GM ** (-1.0 / 7.0) * (Mdisc / tvisc) ** (-2.0 / 7.0)`. -/
def RmUncapped (p : Params) (Mdisc : ℝ) : ℝ :=
  mu p ^ ((4 : ℝ) / 7) * GM ^ ((-1 : ℝ) / 7) * (Mdisc / tvisc p) ^ ((-2 : ℝ) / 7)

/-- Light-cylinder radius: `Rlc = c / omega`. -/
def Rlc (omega : ℝ) : ℝ := c / omega

/-- The Alfven radius after the cap `if Rm >= k * Rlc: Rm = k * Rlc`. -/
def Rm (p : Params) (Mdisc omega : ℝ) : ℝ :=
  if RmUncapped p Mdisc ≥ p.k * Rlc omega then p.k * Rlc omega else RmUncapped p Mdisc

/-- Corotation radius as computed inside `ODEs`:
`Rc = (GM / omega ** 2.0) ** (2.0 / 3.0)`. -/
def Rc (omega : ℝ) : ℝ := (GM / omega ^ (2 : ℕ)) ^ ((2 : ℝ) / 3)

/-- Corotation radius as computed in the plotting cells of both notebooks:
`Rc = (GM / omega ** 2.0) ** (1.0 / 3.0)`. -/
def RcPlot (omega : ℝ) : ℝ := (GM / omega ^ (2 : ℕ)) ^ ((1 : ℝ) / 3)

/-- Fastness parameter: `w = (Rm / Rc) ** (3.0 / 2.0)`, computed from the
capped Alfven radius. -/
def w (p : Params) (Mdisc omega : ℝ) : ℝ :=
  (Rm p Mdisc omega / Rc omega) ^ ((3 : ℝ) / 2)

/-- Rotational energy: `bigT = 0.5 * I * omega ** 2.0`. -/
def bigT (omega : ℝ) : ℝ := 0.5 * I * omega ^ (2 : ℕ)

/-- Binding energy:
`modW = 0.6 * M * c ** 2.0 * ((GM / (R * c ** 2.0)) / (1.0 - 0.5 * (GM / (R * c ** 2.0))))`. -/
def modW : ℝ :=
  0.6 * M * c ^ (2 : ℕ) *
    ((GM / (R * c ^ (2 : ℕ))) / (1 - 0.5 * (GM / (R * c ^ (2 : ℕ)))))

/-- Rotation parameter: `rot_param = bigT / modW`. -/
def rot_param (omega : ℝ) : ℝ := bigT omega / modW

/-- Dipole torque: `Ndip = (-1.0 * mu ** 2.0 * omega ** 3.0) / (6.0 * c ** 3.0)`. -/
def Ndip (p : Params) (omega : ℝ) : ℝ :=
  (-1 * mu p ^ (2 : ℕ) * omega ^ (3 : ℕ)) / (6 * c ^ (3 : ℕ))

/-- The sigmoid propeller efficiency as a function of the sharpness `n` and the
fastness `w`: `eta2 = 0.5 * (1.0 + np.tanh(n * (w - 1.0)))`. -/
def eta2_of (n fast : ℝ) : ℝ := 0.5 * (1 + Real.tanh (n * (fast - 1)))

/-- Propeller efficiency of a state: line 112 of `ODEs`. -/
def eta2 (p : Params) (Mdisc omega : ℝ) : ℝ := eta2_of p.n (w p Mdisc omega)

/-- Accretion efficiency: `eta1 = 1.0 - eta2`. -/
def eta1 (p : Params) (Mdisc omega : ℝ) : ℝ := 1 - eta2 p Mdisc omega

/-- Propelled mass rate: `Mdotprop = eta2 * (Mdisc / tvisc)`. -/
def Mdotprop (p : Params) (Mdisc omega : ℝ) : ℝ :=
  eta2 p Mdisc omega * (Mdisc / tvisc p)

/-- Accreted mass rate: `Mdotacc = eta1 * (Mdisc / tvisc)`. -/
def Mdotacc (p : Params) (Mdisc omega : ℝ) : ℝ :=
  eta1 p Mdisc omega * (Mdisc / tvisc p)

/-- Fallback rate: `Mdotfb = (M0 / tfb) * ((t + tfb) / tfb) ** (-5.0 / 3.0)`. -/
def Mdotfb (p : Params) (t : ℝ) : ℝ :=
  (M0 p / tfb p) * ((t + tfb p) / tfb p) ^ ((-5 : ℝ) / 3)

/-- Mass flow through the disc: `Mdotdisc = Mdotfb - Mdotprop - Mdotacc`. -/
def Mdotdisc (p : Params) (Mdisc omega t : ℝ) : ℝ :=
  Mdotfb p t - Mdotprop p Mdisc omega - Mdotacc p Mdisc omega

/-- Accretion torque with the break-up guard and the nested radius branch:
if `rot_param > 0.27` then `Nacc = 0.0`; otherwise
`Nacc = (GM * Rm) ** 0.5 * (Mdotacc - Mdotprop)` when `Rm >= R` and
`Nacc = (GM * R) ** 0.5 * (Mdotacc - Mdotprop)` when `Rm < R`. -/
def Nacc (p : Params) (Mdisc omega : ℝ) : ℝ :=
  if rot_param omega > 0.27 then 0
  else if Rm p Mdisc omega ≥ R then
    (GM * Rm p Mdisc omega) ^ (0.5 : ℝ) * (Mdotacc p Mdisc omega - Mdotprop p Mdisc omega)
  else
    (GM * R) ^ (0.5 : ℝ) * (Mdotacc p Mdisc omega - Mdotprop p Mdisc omega)

/-- The `ODEs` right-hand side: returns `(Mdotdisc, omegadot)` with
`omegadot = (Nacc + Ndip) / I`. -/
def ODEs (p : Params) (Mdisc omega t : ℝ) : ℝ × ℝ :=
  (Mdotdisc p Mdisc omega t, (Nacc p Mdisc omega + Ndip p omega) / I)

/-- The parameter set used in `figure2.ipynb` (with the Python default values
of `alpha`, `cs7`, `k` and `n`), used as a concrete instantiation point. -/
def pW : Params := ⟨1, 0.001, 100, 1, 1, 1, 0.1, 1, 0.9⟩

/-! Basic positivity facts about the constants. -/

lemma GM_pos : 0 < GM := by unfold GM G M Msol; norm_num

lemma R_pos : 0 < R := by unfold R; norm_num

lemma I_pos : 0 < I := by unfold I M Msol R; norm_num

lemma c_pos : 0 < c := by unfold c; norm_num

lemma tanh_pos_of_pos {x : ℝ} (hx : 0 < x) : 0 < Real.tanh x := by
  rw [Real.tanh_eq_sinh_div_cosh]
  exact div_pos (Real.sinh_pos_iff.mpr hx) (Real.cosh_pos x)

lemma tanh_neg_of_neg {x : ℝ} (hx : x < 0) : Real.tanh x < 0 := by
  have h : 0 < Real.tanh (-x) := tanh_pos_of_pos (by linarith)
  rw [Real.tanh_neg] at h
  linarith

/-! Claim theorems. -/

lemma rpow_two_thirds_ne {x : ℝ} (hx : 0 < x) (hx1 : x ≠ 1) :
    x ^ ((2 : ℝ) / 3) ≠ x ^ ((1 : ℝ) / 3) := by
  intro heq
  have hy : 0 < x ^ ((1 : ℝ) / 3) := Real.rpow_pos_of_pos hx _
  have hsplit : x ^ ((2 : ℝ) / 3) = x ^ ((1 : ℝ) / 3) * x ^ ((1 : ℝ) / 3) := by
    rw [← Real.rpow_add hx]
    norm_num
  have h2 : x ^ ((1 : ℝ) / 3) * x ^ ((1 : ℝ) / 3) = x ^ ((1 : ℝ) / 3) * 1 := by
    rw [mul_one, ← hsplit]
    exact heq
  have hy1 : x ^ ((1 : ℝ) / 3) = 1 := mul_left_cancel₀ (ne_of_gt hy) h2
  have h4 : (x ^ ((1 : ℝ) / 3)) ^ (3 : ℕ) = x := by
    rw [← Real.rpow_natCast (x ^ ((1 : ℝ) / 3)) 3, ← Real.rpow_mul hx.le]
    norm_num
  rw [hy1] at h4
  exact hx1 (by simpa using h4.symm)

/-- Claim C1: the corotation radius used inside `ODEs` is
`(GM / omega^2) ^ (2/3)` while the plotting cells compute
`(GM / omega^2) ^ (1/3)`; for every `omega > 0` with `GM / omega^2 != 1` the
two values differ. -/
theorem C1_Rc_exponent_mismatch (omega : ℝ) (hw : 0 < omega)
    (hne : GM / omega ^ (2 : ℕ) ≠ 1) : Rc omega ≠ RcPlot omega := by
  have hx : 0 < GM / omega ^ (2 : ℕ) := div_pos GM_pos (pow_pos hw 2)
  exact rpow_two_thirds_ne hx hne

/-- Claim C1 witness: at `omega = 1` the model corotation radius and the
plotting corotation radius differ. -/
theorem C1_Rc_exponent_mismatch_witness : Rc 1 ≠ RcPlot 1 :=
  C1_Rc_exponent_mismatch 1 (by norm_num) (by norm_num [GM, G, M, Msol])

/-- Claim C2: for every state with `omega > 0` and `Mdisc > 0`, the accretion
torque computed by `ODEs` equals `0` when `rot_param > 0.27` and otherwise
equals `sqrt(GM * R_eff) * (Mdotacc - Mdotprop)` with `R_eff = max (Rm, R)`;
the code's nested branch agrees with this max formulation. -/
theorem C2_Nacc_max_form (p : Params) (Mdisc omega : ℝ)
    (hM : 0 < Mdisc) (hw : 0 < omega) :
    Nacc p Mdisc omega =
      if rot_param omega > 0.27 then 0
      else Real.sqrt (GM * max (Rm p Mdisc omega) R) *
        (Mdotacc p Mdisc omega - Mdotprop p Mdisc omega) := by
  unfold Nacc
  have h05 : (0.5 : ℝ) = 1 / 2 := by norm_num
  split_ifs with h1 h2
  · rfl
  · rw [max_eq_left h2, Real.sqrt_eq_rpow, h05]
  · rw [max_eq_right (le_of_lt (lt_of_not_ge h2)), Real.sqrt_eq_rpow, h05]

/-- Claim C2 witness: the max formulation evaluated at the figure-2 parameter
set and a concrete state. -/
theorem C2_Nacc_max_form_witness :
    Nacc pW 1 1 =
      if rot_param 1 > 0.27 then 0
      else Real.sqrt (GM * max (Rm pW 1 1) R) * (Mdotacc pW 1 1 - Mdotprop pW 1 1) :=
  C2_Nacc_max_form pW 1 1 (by norm_num) (by norm_num)

/-- Claim C3: the first component returned by `ODEs` equals
`Mdotfb - Mdotprop - Mdotacc`, and since `eta1 + eta2 = 1` it also equals
`Mdotfb - Mdisc / tvisc`, independently of `n` and of the fastness `w`. -/
theorem C3_Mdotdisc_eq (p : Params) (Mdisc omega t : ℝ)
    (hM : 0 < Mdisc) (hw : 0 < omega) (ht : 0 ≤ t) :
    (ODEs p Mdisc omega t).1 =
      Mdotfb p t - Mdotprop p Mdisc omega - Mdotacc p Mdisc omega ∧
    (ODEs p Mdisc omega t).1 = Mdotfb p t - Mdisc / tvisc p := by
  constructor
  · rfl
  · show Mdotdisc p Mdisc omega t = Mdotfb p t - Mdisc / tvisc p
    unfold Mdotdisc Mdotprop Mdotacc eta1
    ring

/-- Claim C3 witness: the mass-balance identity at a concrete state and time. -/
theorem C3_Mdotdisc_eq_witness :
    (ODEs pW 1 1 0).1 = Mdotfb pW 0 - Mdotprop pW 1 1 - Mdotacc pW 1 1 ∧
    (ODEs pW 1 1 0).1 = Mdotfb pW 0 - 1 / tvisc pW :=
  C3_Mdotdisc_eq pW 1 1 0 (by norm_num) (by norm_num) (by norm_num)

/-- Claim C4: after the capping step the Alfven radius satisfies
`Rm <= k * Rlc`; when the uncapped value is `>= k * Rlc` it is replaced by
`k * Rlc`; and the fastness parameter and the accretion torque are computed
from the capped value. -/
theorem C4_Rm_cap (p : Params) (Mdisc omega : ℝ)
    (hM : 0 < Mdisc) (hw : 0 < omega) :
    Rm p Mdisc omega ≤ p.k * Rlc omega ∧
    (RmUncapped p Mdisc ≥ p.k * Rlc omega → Rm p Mdisc omega = p.k * Rlc omega) ∧
    w p Mdisc omega = (Rm p Mdisc omega / Rc omega) ^ ((3 : ℝ) / 2) ∧
    Nacc p Mdisc omega =
      (if rot_param omega > 0.27 then 0
       else if Rm p Mdisc omega ≥ R then
         (GM * Rm p Mdisc omega) ^ (0.5 : ℝ) *
           (Mdotacc p Mdisc omega - Mdotprop p Mdisc omega)
       else
         (GM * R) ^ (0.5 : ℝ) *
           (Mdotacc p Mdisc omega - Mdotprop p Mdisc omega)) := by
  refine ⟨?_, ?_, rfl, rfl⟩
  · unfold Rm
    split_ifs with h
    · exact le_refl _
    · exact le_of_lt (lt_of_not_ge h)
  · intro h
    unfold Rm
    rw [if_pos h]

/-- Claim C4 witness: the capping invariant at the figure-2 parameter set and
a concrete state. -/
theorem C4_Rm_cap_witness :
    Rm pW 1 1 ≤ pW.k * Rlc 1 ∧
    (RmUncapped pW 1 ≥ pW.k * Rlc 1 → Rm pW 1 1 = pW.k * Rlc 1) ∧
    w pW 1 1 = (Rm pW 1 1 / Rc 1) ^ ((3 : ℝ) / 2) ∧
    Nacc pW 1 1 =
      (if rot_param 1 > 0.27 then 0
       else if Rm pW 1 1 ≥ R then
         (GM * Rm pW 1 1) ^ (0.5 : ℝ) * (Mdotacc pW 1 1 - Mdotprop pW 1 1)
       else
         (GM * R) ^ (0.5 : ℝ) * (Mdotacc pW 1 1 - Mdotprop pW 1 1)) :=
  C4_Rm_cap pW 1 1 (by norm_num) (by norm_num)

/-- Claim C5: for all parameter values with `n >= 1` and every state with
`Mdisc > 0` and `omega > 0`, the partition coefficients of `ODEs` satisfy
`eta1 + eta2 = 1` exactly. -/
theorem C5_eta_sum (p : Params) (Mdisc omega : ℝ)
    (hn : 1 ≤ p.n) (hM : 0 < Mdisc) (hw : 0 < omega) :
    eta1 p Mdisc omega + eta2 p Mdisc omega = 1 := by
  unfold eta1
  ring

/-- Claim C5 witness: the partition identity at the figure-2 parameter set
(where `n = 1`) and a concrete state. -/
theorem C5_eta_sum_witness : eta1 pW 1 1 + eta2 pW 1 1 = 1 :=
  C5_eta_sum pW 1 1 (by norm_num [pW]) (by norm_num) (by norm_num)

/-- Claim C6: for every sharpness `n`, the sigmoid propeller efficiency of
`ODEs` evaluated at fastness exactly `1` equals `0.5`, because `tanh 0 = 0`. -/
theorem C6_eta2_at_one (n : ℝ) : eta2_of n 1 = 0.5 := by
  unfold eta2_of
  norm_num

/-- Claim C7: `init_conds` returns `Mdisc0 = discMass * Msol` and
`omega0 = 2 * pi / (period * 1e-3)`; at period 5 ms and disc mass 0.001 solar
masses it returns approximately `1.99e30` grams and `1256.6` rad/s, each
within relative tolerance `1e-2`. -/
theorem C7_init_conds_spec (period discMass : ℝ) (hp : 0 < period) :
    init_conds period discMass = (discMass * Msol, 2 * Real.pi / (period * 1e-3)) ∧
    |(init_conds 5 0.001).1 - 1.99e30| ≤ 1e-2 * 1.99e30 ∧
    |(init_conds 5 0.001).2 - 1256.6| ≤ 1e-2 * 1256.6 := by
  refine ⟨?_, ?_, ?_⟩
  · unfold init_conds
    rw [Prod.mk.injEq]
    exact ⟨rfl, by ring⟩
  · unfold init_conds Msol
    norm_num
  · have hpi1 : 3.1415 < Real.pi := Real.pi_gt_d4
    have hpi2 : Real.pi < 3.1416 := Real.pi_lt_d4
    have he : (init_conds 5 0.001).2 = 400 * Real.pi := by
      show 2 * Real.pi / (1e-3 * 5) = 400 * Real.pi
      rw [div_eq_iff (by norm_num : (1e-3 : ℝ) * 5 ≠ 0)]
      ring_nf
    rw [he, abs_le]
    constructor <;> nlinarith

/-- Claim C7 witness: the `init_conds` contract applied at period 5 ms and
disc mass 0.001 solar masses. -/
theorem C7_init_conds_spec_witness :
    init_conds 5 0.001 = (0.001 * Msol, 2 * Real.pi / (5 * 1e-3)) ∧
    |(init_conds 5 0.001).1 - 1.99e30| ≤ 1e-2 * 1.99e30 ∧
    |(init_conds 5 0.001).2 - 1256.6| ≤ 1e-2 * 1256.6 :=
  C7_init_conds_spec 5 0.001 (by norm_num)

/-- Claim C9: for every state with `omega > 0` and `mu > 0` the dipole torque
is strictly negative, and whenever the accretion torque is suppressed
(`rot_param > 0.27`) the spin derivative returned by `ODEs` is strictly
negative. -/
theorem C9_dipole_spindown (p : Params) (Mdisc omega t : ℝ)
    (hw : 0 < omega) (hmu : 0 < mu p) :
    Ndip p omega < 0 ∧
    (rot_param omega > 0.27 → (ODEs p Mdisc omega t).2 < 0) := by
  have hc3 : (0 : ℝ) < 6 * c ^ (3 : ℕ) := by unfold c; norm_num
  have hnum : -1 * mu p ^ (2 : ℕ) * omega ^ (3 : ℕ) < 0 := by
    have h1 : 0 < mu p ^ (2 : ℕ) := pow_pos hmu 2
    have h2 : 0 < omega ^ (3 : ℕ) := pow_pos hw 3
    nlinarith
  have hNdip : Ndip p omega < 0 := div_neg_of_neg_of_pos hnum hc3
  refine ⟨hNdip, fun hrot => ?_⟩
  show (Nacc p Mdisc omega + Ndip p omega) / I < 0
  unfold Nacc
  rw [if_pos hrot, zero_add]
  exact div_neg_of_neg_of_pos hNdip I_pos

/-- Claim C9 witness: spin-down at the figure-2 parameter set and a concrete
state. -/
theorem C9_dipole_spindown_witness :
    Ndip pW 1 < 0 ∧ (rot_param 1 > 0.27 → (ODEs pW 1 1 0).2 < 0) :=
  C9_dipole_spindown pW 1 1 0 (by norm_num) (by norm_num [mu, pW, R])

/-- Claim C10: below the break-up guard the accretion torque tracks the
fastness boundary: `Mdotacc - Mdotprop = -(Mdisc / tvisc) * tanh(n * (w - 1))`,
so `Nacc > 0` for `w < 1`, `Nacc < 0` for `w > 1` and `Nacc = 0` at `w = 1`
(assuming the positive viscous timescale implicit in a physical state). -/
theorem C10_Nacc_sign (p : Params) (Mdisc omega : ℝ)
    (hM : 0 < Mdisc) (hw : 0 < omega) (hn : 0 < p.n) (htv : 0 < tvisc p)
    (hrot : rot_param omega ≤ 0.27) :
    Mdotacc p Mdisc omega - Mdotprop p Mdisc omega =
      -(Mdisc / tvisc p) * Real.tanh (p.n * (w p Mdisc omega - 1)) ∧
    (w p Mdisc omega < 1 → 0 < Nacc p Mdisc omega) ∧
    (1 < w p Mdisc omega → Nacc p Mdisc omega < 0) ∧
    (w p Mdisc omega = 1 → Nacc p Mdisc omega = 0) := by
  have hdiff : Mdotacc p Mdisc omega - Mdotprop p Mdisc omega =
      -(Mdisc / tvisc p) * Real.tanh (p.n * (w p Mdisc omega - 1)) := by
    unfold Mdotacc Mdotprop eta1 eta2 eta2_of
    ring
  have hfac : Nacc p Mdisc omega =
      (if Rm p Mdisc omega ≥ R then (GM * Rm p Mdisc omega) ^ (0.5 : ℝ)
       else (GM * R) ^ (0.5 : ℝ)) *
      (Mdotacc p Mdisc omega - Mdotprop p Mdisc omega) := by
    unfold Nacc
    rw [if_neg (not_lt.mpr hrot)]
    split_ifs <;> rfl
  have hfacpos : 0 <
      (if Rm p Mdisc omega ≥ R then (GM * Rm p Mdisc omega) ^ (0.5 : ℝ)
       else (GM * R) ^ (0.5 : ℝ)) := by
    split_ifs with h
    · exact Real.rpow_pos_of_pos (mul_pos GM_pos (lt_of_lt_of_le R_pos h)) _
    · exact Real.rpow_pos_of_pos (mul_pos GM_pos R_pos) _
  refine ⟨hdiff, ?_, ?_, ?_⟩
  · intro hw1
    rw [hfac, hdiff]
    have ht : Real.tanh (p.n * (w p Mdisc omega - 1)) < 0 :=
      tanh_neg_of_neg (mul_neg_of_pos_of_neg hn (by linarith))
    have hd : 0 < -(Mdisc / tvisc p) * Real.tanh (p.n * (w p Mdisc omega - 1)) :=
      mul_pos_of_neg_of_neg (by simpa using neg_neg_of_pos (div_pos hM htv)) ht
    exact mul_pos hfacpos hd
  · intro hw1
    rw [hfac, hdiff]
    have ht : 0 < Real.tanh (p.n * (w p Mdisc omega - 1)) :=
      tanh_pos_of_pos (mul_pos hn (by linarith))
    have hd : -(Mdisc / tvisc p) * Real.tanh (p.n * (w p Mdisc omega - 1)) < 0 :=
      mul_neg_of_neg_of_pos (by simpa using neg_neg_of_pos (div_pos hM htv)) ht
    exact mul_neg_of_pos_of_neg hfacpos hd
  · intro hw1
    rw [hfac, hdiff, hw1]
    norm_num

/-- Claim C10 witness: the torque sign analysis at the figure-2 parameter set
and a concrete state. -/
theorem C10_Nacc_sign_witness :
    Mdotacc pW 1 1 - Mdotprop pW 1 1 =
      -((1 : ℝ) / tvisc pW) * Real.tanh (pW.n * (w pW 1 1 - 1)) ∧
    (w pW 1 1 < 1 → 0 < Nacc pW 1 1) ∧
    (1 < w pW 1 1 → Nacc pW 1 1 < 0) ∧
    (w pW 1 1 = 1 → Nacc pW 1 1 = 0) :=
  C10_Nacc_sign pW 1 1 (by norm_num) (by norm_num) (by norm_num [pW])
    (by norm_num [tvisc, Rdisc, pW])
    (by norm_num [rot_param, bigT, modW, I, M, Msol, GM, G, R, c])

end

end Magnetar
